import Mathlib

/-!
Verification development for the media-date-organiser program
(src/program/media-date-organiser.py).

The Python source is shallowly embedded below:

* `extract_date_from_filename` embeds the function of the same name
  (lines 63-73): a prefix match of the regular expression
  `(?:IMG|VID|PTV)-(\d{4})(\d{2})(\d{2})-WA\d+` followed by
  `strptime` on the string `"{year}-{month}-{day} 15:00:00"`.
* `parseDateTimeFmt` embeds CPython `datetime.strptime` restricted to the
  three concrete format strings the program uses
  (`"%Y:%m:%d %H:%M:%S"`, `"%Y-%m-%d %H:%M:%S"`, `"%Y:%m:%d %H:%M:%SZ"`).
  CPython compiles a format into a regular expression
  (`%Y` -> `\d\d\d\d`, `%m` -> `1[0-2]|0[1-9]|[1-9]`,
  `%d` -> `3[01]|[12]\d|0[1-9]|[1-9]`, `%H` -> `2[0-3]|[0-1]\d|\d`,
  `%M` -> `[0-5]\d|\d`, `%S` -> `6[0-1]|[0-5]\d|\d`, a whitespace in the
  format -> `\s+`, compiled with IGNORECASE), requires the whole string to
  be consumed, and then the `datetime` constructor validates ranges
  (year 1..9999, day against the month length, second 0..59).  For these
  formats ordered-choice parsing coincides with backtracking regex
  matching: every two-character alternative consumes two digits, so when a
  one-character alternative is retried the next character is a digit and
  can never match the literal separator or whitespace that follows.
* `cleanDateStr` embeds the normalisation on lines 215-216 / 299-300:
  `raw.split('.')[0].split('+')[0].split('-')[0].split('Z')[0].strip()`.
* `resolveLoop` embeds the metadata field loop (lines 209-228 / 294-311).
* `resolveDateErr` embeds the date-resolution block (lines 203-231 /
  288-313) including the error message it leaves behind.
* `process_file`, `process_pass`, `process_files` embed the per-file
  pipeline of `process_files` (lines 155-347); external effects
  (ExifTool metadata fetch, ExifTool date write, the best-effort move of a
  failed file) are supplied as oracles, and the filesystem is a record of
  the four directory listings.
* `mainEarly` embeds the early exit behaviour of `main`
  (lines 443-499): missing ExifTool dependencies exit with status 1;
  zero media files write the no-files summary and exit with status 0.

Characters are compared through their code points (`Char.toNat`); the
embedding is faithful on all Unicode strings for the literal comparisons
and on the ASCII range for the `\d`/`\s` character classes.
-/

/-- A `datetime.datetime` value as far as this program observes it
(microseconds are always zeroed by the program). -/
structure PyDateTime where
  year : Nat
  month : Nat
  day : Nat
  hour : Nat
  minute : Nat
  second : Nat
deriving DecidableEq, Repr

/-- Code point of a character. -/
def cp (c : Char) : Nat := c.toNat

/-- Numeric value of an ASCII digit character. -/
def digitVal (c : Char) : Nat := c.toNat - 48

/-- The regex class `\d` on the ASCII range: code points 48..57. -/
def isAsciiDigit (c : Char) : Prop := 48 ≤ cp c ∧ cp c ≤ 57

instance (c : Char) : Decidable (isAsciiDigit c) := by
  unfold isAsciiDigit; infer_instance

/-- Value of a two-digit group. -/
def twoDigitVal (a b : Char) : Nat := 10 * digitVal a + digitVal b

/-- Value of a four-digit group. -/
def fourDigitVal (a b c d : Char) : Nat :=
  1000 * digitVal a + 100 * digitVal b + 10 * digitVal c + digitVal d

/-- Python `\s` on the ASCII range: space, tab, newline, carriage return,
vertical tab, form feed. -/
def isPySpace (c : Char) : Bool :=
  decide (cp c = 32 ∨ cp c = 9 ∨ cp c = 10 ∨ cp c = 13 ∨ cp c = 11 ∨ cp c = 12)

/-- `%Y` compiled by CPython strptime: exactly four `\d`. -/
def parseY4 : List Char → Option (Nat × List Char)
  | a :: b :: c :: d :: r =>
    if isAsciiDigit a ∧ isAsciiDigit b ∧ isAsciiDigit c ∧ isAsciiDigit d then
      some (fourDigitVal a b c d, r)
    else none
  | _ => none

/-- `%m` compiled by CPython strptime: `1[0-2]|0[1-9]|[1-9]`. -/
def parseMonth : List Char → Option (Nat × List Char)
  | c1 :: c2 :: r =>
    if cp c1 = 49 ∧ 48 ≤ cp c2 ∧ cp c2 ≤ 50 then some (10 + digitVal c2, r)
    else if cp c1 = 48 ∧ 49 ≤ cp c2 ∧ cp c2 ≤ 57 then some (digitVal c2, r)
    else if 49 ≤ cp c1 ∧ cp c1 ≤ 57 then some (digitVal c1, c2 :: r)
    else none
  | [c1] => if 49 ≤ cp c1 ∧ cp c1 ≤ 57 then some (digitVal c1, []) else none
  | [] => none

/-- `%d` compiled by CPython strptime: `3[01]|[12]\d|0[1-9]|[1-9]`. -/
def parseDay : List Char → Option (Nat × List Char)
  | c1 :: c2 :: r =>
    if cp c1 = 51 ∧ 48 ≤ cp c2 ∧ cp c2 ≤ 49 then some (30 + digitVal c2, r)
    else if 49 ≤ cp c1 ∧ cp c1 ≤ 50 ∧ 48 ≤ cp c2 ∧ cp c2 ≤ 57 then
      some (twoDigitVal c1 c2, r)
    else if cp c1 = 48 ∧ 49 ≤ cp c2 ∧ cp c2 ≤ 57 then some (digitVal c2, r)
    else if 49 ≤ cp c1 ∧ cp c1 ≤ 57 then some (digitVal c1, c2 :: r)
    else none
  | [c1] => if 49 ≤ cp c1 ∧ cp c1 ≤ 57 then some (digitVal c1, []) else none
  | [] => none

/-- `%H` compiled by CPython strptime: `2[0-3]|[0-1]\d|\d`. -/
def parseHour : List Char → Option (Nat × List Char)
  | c1 :: c2 :: r =>
    if cp c1 = 50 ∧ 48 ≤ cp c2 ∧ cp c2 ≤ 51 then some (20 + digitVal c2, r)
    else if 48 ≤ cp c1 ∧ cp c1 ≤ 49 ∧ 48 ≤ cp c2 ∧ cp c2 ≤ 57 then
      some (twoDigitVal c1 c2, r)
    else if 48 ≤ cp c1 ∧ cp c1 ≤ 57 then some (digitVal c1, c2 :: r)
    else none
  | [c1] => if 48 ≤ cp c1 ∧ cp c1 ≤ 57 then some (digitVal c1, []) else none
  | [] => none

/-- `%M` compiled by CPython strptime: `[0-5]\d|\d`. -/
def parseMinute : List Char → Option (Nat × List Char)
  | c1 :: c2 :: r =>
    if 48 ≤ cp c1 ∧ cp c1 ≤ 53 ∧ 48 ≤ cp c2 ∧ cp c2 ≤ 57 then
      some (twoDigitVal c1 c2, r)
    else if 48 ≤ cp c1 ∧ cp c1 ≤ 57 then some (digitVal c1, c2 :: r)
    else none
  | [c1] => if 48 ≤ cp c1 ∧ cp c1 ≤ 57 then some (digitVal c1, []) else none
  | [] => none

/-- `%S` compiled by CPython strptime: `6[0-1]|[0-5]\d|\d`. -/
def parseSecond : List Char → Option (Nat × List Char)
  | c1 :: c2 :: r =>
    if cp c1 = 54 ∧ 48 ≤ cp c2 ∧ cp c2 ≤ 49 then some (60 + digitVal c2, r)
    else if 48 ≤ cp c1 ∧ cp c1 ≤ 53 ∧ 48 ≤ cp c2 ∧ cp c2 ≤ 57 then
      some (twoDigitVal c1 c2, r)
    else if 48 ≤ cp c1 ∧ cp c1 ≤ 57 then some (digitVal c1, c2 :: r)
    else none
  | [c1] => if 48 ≤ cp c1 ∧ cp c1 ≤ 57 then some (digitVal c1, []) else none
  | [] => none

/-- A literal character of the format string: must match exactly. -/
def expectCh (n : Nat) : List Char → Option (List Char)
  | c :: r => if cp c = n then some r else none
  | [] => none

/-- A whitespace in the format string compiles to `\s+`. -/
def parseSpaces : List Char → Option (List Char)
  | c :: r => if isPySpace c then some (r.dropWhile isPySpace) else none
  | [] => none

/-- The literal `Z` of `"%Y:%m:%d %H:%M:%SZ"`; strptime compiles with
IGNORECASE, so a lowercase `z` also matches. -/
def expectZ : List Char → Option (List Char)
  | c :: r => if cp c = 90 ∨ cp c = 122 then some r else none
  | [] => none

/-- Leap years as `datetime` (proleptic Gregorian) determines them. -/
def isLeapYear (y : Nat) : Bool :=
  decide ((y % 4 = 0 ∧ y % 100 ≠ 0) ∨ y % 400 = 0)

/-- Length of a month as `datetime` determines it. -/
def daysInMonth (y mo : Nat) : Nat :=
  if mo = 2 then (if isLeapYear y then 29 else 28)
  else if mo = 4 ∨ mo = 6 ∨ mo = 9 ∨ mo = 11 then 30
  else 31

/-- The `datetime` constructor: validates every component and raises
`ValueError` (here: `none`) out of range. -/
def mkDatetime (y mo d h mi s : Nat) : Option PyDateTime :=
  if 1 ≤ y ∧ y ≤ 9999 ∧ 1 ≤ mo ∧ mo ≤ 12 ∧ 1 ≤ d ∧ d ≤ daysInMonth y mo ∧
     h ≤ 23 ∧ mi ≤ 59 ∧ s ≤ 59 then
    some ⟨y, mo, d, h, mi, s⟩
  else none

/-- `datetime.strptime(s, fmt)` for the format
`"%Y" sep "%m" sep "%d" " " "%H" ":" "%M" ":" "%S"` with an optional literal
`Z` at the end; `sep` is the code point of the date separator (58 for the
colon formats, 45 for the hyphen format).  The whole input must be consumed
(strptime raises on unconverted trailing data). -/
def parseDateTimeFmt (sep : Nat) (trailZ : Bool) (l : List Char) : Option PyDateTime :=
  (parseY4 l).bind fun p1 =>
  (expectCh sep p1.2).bind fun r2 =>
  (parseMonth r2).bind fun p2 =>
  (expectCh sep p2.2).bind fun r4 =>
  (parseDay r4).bind fun p3 =>
  (parseSpaces p3.2).bind fun r6 =>
  (parseHour r6).bind fun p4 =>
  (expectCh 58 p4.2).bind fun r8 =>
  (parseMinute r8).bind fun p5 =>
  (expectCh 58 p5.2).bind fun r10 =>
  (parseSecond r10).bind fun p6 =>
  ((if trailZ then expectZ p6.2 else some p6.2).bind fun r12 =>
  if r12 = [] then mkDatetime p1.1 p2.1 p3.1 p4.1 p5.1 p6.1 else none)

example : parseDateTimeFmt 58 false "2022:06:01 10:23:45".data =
    some ⟨2022, 6, 1, 10, 23, 45⟩ := by decide

example : parseDateTimeFmt 58 false "2022:13:01 10:23:45".data = none := by decide

example : parseDateTimeFmt 45 false "2023-02-29 15:00:00".data = none := by decide

example : parseDateTimeFmt 45 false "2024-02-29 15:00:00".data =
    some ⟨2024, 2, 29, 15, 0, 0⟩ := by decide

example : parseDateTimeFmt 58 false "2022".data = none := by decide

/-- Python `s.split(chr n)[0]`: the prefix of `s` before the first
occurrence of the character with code point `n`. -/
def takeBefore (n : Nat) (l : List Char) : List Char :=
  l.takeWhile fun c => cp c != n

/-- Python `s.strip()`: whitespace removed from both ends. -/
def pstrip (l : List Char) : List Char :=
  ((l.dropWhile isPySpace).reverse.dropWhile isPySpace).reverse

/-- Lines 215-216 / 299-300:
`raw.split('.')[0].split('+')[0].split('-')[0].split('Z')[0].strip()`.
Code points: `.` 46, `+` 43, `-` 45, `Z` 90. -/
def cleanDateStr (l : List Char) : List Char :=
  pstrip (takeBefore 90 (takeBefore 45 (takeBefore 43 (takeBefore 46 l))))

/-- One strptime format as the program instantiates it: the date separator
code point and whether a literal `Z` ends the format. -/
structure Fmt where
  sep : Nat
  trailZ : Bool
deriving DecidableEq, Repr

/-- The format tuple on line 219: `("%Y:%m:%d %H:%M:%S", "%Y-%m-%d %H:%M:%S")`. -/
def photoFmts : List Fmt := [⟨58, false⟩, ⟨45, false⟩]

/-- The format tuple on line 302:
`("%Y:%m:%d %H:%M:%S", "%Y-%m-%d %H:%M:%S", "%Y:%m:%d %H:%M:%SZ")`. -/
def videoFmts : List Fmt := [⟨58, false⟩, ⟨45, false⟩, ⟨58, true⟩]

/-- The `for fmt in (...)` loop body of lines 219-225: the first format that
strptime accepts wins. -/
def tryFormats : List Fmt → List Char → Option PyDateTime
  | [], _ => none
  | f :: rest, l =>
    match parseDateTimeFmt f.sep f.trailZ l with
    | some d => some d
    | none => tryFormats rest l

/-- Line 222 / 305: `date.replace(hour=15, minute=0, second=0, microsecond=0)`. -/
def fixTime (d : PyDateTime) : PyDateTime :=
  { d with hour := 15, minute := 0, second := 0 }

/-- The whole per-field parse of lines 214-225: stringify, normalise, try the
formats in order, and fix the time of day of the first success. -/
def parseFieldValue (fmts : List Fmt) (raw : List Char) : Option PyDateTime :=
  (tryFormats fmts (cleanDateStr raw)).map fixTime

/-- A metadata record: the JSON object ExifTool printed, as an ordered
mapping from field name to (stringified) value. -/
def MetaRecord : Type := List (String × String)

instance : DecidableEq MetaRecord := by unfold MetaRecord; infer_instance

/-- Python `field in metadata and metadata[field]` data access: the value
stored under a key, if any (keys of a JSON object are unique). -/
def lookupField (record : MetaRecord) (field : String) : Option String :=
  match record with
  | [] => none
  | (k, v) :: rest => if k = field then some v else lookupField rest field

/-- One field of the loop on lines 210-228: usable iff present, truthy
(non-empty string) and parseable; yields the already time-fixed date. -/
def usableField (fmts : List Fmt) (record : MetaRecord) (field : String) :
    Option PyDateTime :=
  match lookupField record field with
  | some v => if v = "" then none else parseFieldValue fmts v.data
  | none => none

/-- The `for field in date_fields` loop of lines 210-228 / 295-311: walk the
priority list, break at the first field whose value parses. -/
def resolveLoop (fmts : List Fmt) (record : MetaRecord) :
    List String → Option PyDateTime
  | [] => none
  | field :: rest =>
    match usableField fmts record field with
    | some d => some d
    | none => resolveLoop fmts record rest

/-- The two media classes the program handles, determined by extension. -/
inductive MediaKind | photo | video
deriving DecidableEq, Repr

/-- Line 186 / 272 extension filter target. -/
def MediaKind.ext : MediaKind → String
  | .photo => ".jpg"
  | .video => ".mp4"

/-- The `date_fields` priority list on line 209 (photos) / line 294 (videos). -/
def MediaKind.dateFields : MediaKind → List String
  | .photo => ["DateTimeOriginal", "CreateDate", "SubSecDateTimeOriginal",
      "SubSecCreateDate", "SubSecModifyDate", "ModifyDate", "FileModifyDate"]
  | .video => ["CreationDate", "DateTimeOriginal", "CreateDate",
      "MediaCreateDate", "TrackCreateDate", "ModifyDate", "MediaModifyDate",
      "TrackModifyDate", "FileModifyDate"]

/-- The strptime format tuple used for each class (line 219 / line 302). -/
def MediaKind.fmts : MediaKind → List Fmt
  | .photo => photoFmts
  | .video => videoFmts

/-- The alternation `(?:IMG|VID|PTV)-` at the start of the filename
pattern on line 65. -/
def dropTag : List Char → Option (List Char)
  | c1 :: c2 :: c3 :: c4 :: r =>
    if (cp c1 = 73 ∧ cp c2 = 77 ∧ cp c3 = 71) ∨
       (cp c1 = 86 ∧ cp c2 = 73 ∧ cp c3 = 68) ∨
       (cp c1 = 80 ∧ cp c2 = 84 ∧ cp c3 = 86) then
      if cp c4 = 45 then some r else none
    else none
  | _ => none

/-- Lines 63-73.  `re.match` anchors only at the start of the stem, so
trailing characters after the `WA` digits are allowed.  On a match the
program formats `f"{year}-{month}-{day} 15:00:00"` from the three digit
groups and parses it with `strptime(_, "%Y-%m-%d %H:%M:%S")`; a
`ValueError` (invalid calendar date) yields `None`. -/
def extract_date_from_filename (stem : List Char) : Option PyDateTime :=
  match dropTag stem with
  | none => none
  | some r =>
    match r with
    | y1 :: y2 :: y3 :: y4 :: m1 :: m2 :: d1 :: d2 :: x1 :: x2 :: x3 :: c :: _ =>
      if isAsciiDigit y1 ∧ isAsciiDigit y2 ∧ isAsciiDigit y3 ∧ isAsciiDigit y4 ∧
         isAsciiDigit m1 ∧ isAsciiDigit m2 ∧ isAsciiDigit d1 ∧ isAsciiDigit d2 ∧
         cp x1 = 45 ∧ cp x2 = 87 ∧ cp x3 = 65 ∧ isAsciiDigit c then
        parseDateTimeFmt 45 false
          [y1, y2, y3, y4, '-', m1, m2, '-', d1, d2,
           ' ', '1', '5', ':', '0', '0', ':', '0', '0']
      else none
    | _ => none

example : extract_date_from_filename "IMG-20230115-WA0042".data =
    some ⟨2023, 1, 15, 15, 0, 0⟩ := by decide

example : extract_date_from_filename "VID-20231301-WA0042".data = none := by decide

example : extract_date_from_filename "random_photo".data = none := by decide

example : extract_date_from_filename "IMG-20230115-WA0042x".data =
    some ⟨2023, 1, 15, 15, 0, 0⟩ := by decide

/-- Python truthiness of `metadata` on line 208 / 293: a missing record
(`None`) and an empty JSON object are both falsy. -/
def metaTruthy : Option MetaRecord → Bool
  | some m => !m.isEmpty
  | none => false

/-- Lines 203-231 / 288-313: the date-resolution block.  Returns the value
the variable `date` holds afterwards together with the `error_message`
state it leaves behind ("Unknown error" unless the metadata read failed).
The metadata fetch result is passed in as the oracle `mfetch`. -/
def resolveDateErr (kind : MediaKind) (stem : List Char)
    (mfetch : Option MetaRecord) : Option PyDateTime × String :=
  match extract_date_from_filename stem with
  | some d => (some d, "Unknown error")
  | none =>
    match mfetch with
    | some m =>
      if m.isEmpty then (none, "Failed to read metadata (ExifTool)")
      else (resolveLoop kind.fmts m kind.dateFields, "Unknown error")
    | none => (none, "Failed to read metadata (ExifTool)")

/-- The date a file resolves to: the spec's Date Resolution Orchestrator. -/
def resolveDate (kind : MediaKind) (stem : List Char)
    (mfetch : Option MetaRecord) : Option PyDateTime :=
  (resolveDateErr kind stem mfetch).1

example : resolveDate .photo "random_photo".data
    (some [("DateTimeOriginal", "2022:06:01 10:23:45+02:00")]) =
    some ⟨2022, 6, 1, 15, 0, 0⟩ := by decide

example : resolveDate .photo "random_photo".data
    (some [("DateTimeOriginal", "2022-06-01 10:23:45")]) = none := by decide

/-- The `results` dictionary initialised on lines 162-173 and mutated by
`process_files`. -/
structure Results where
  successful : List String
  failed : List (String × String)
  total_processed : Nat
  total_success : Nat
  total_failed : Nat
  processed_photos : Nat
  processed_videos : Nat
  failed_photos : Nat
  failed_videos : Nat
  skipped_already_in_output : Nat
deriving DecidableEq, Repr

/-- Lines 162-173: every counter zero, both lists empty. -/
def initResults : Results :=
  ⟨[], [], 0, 0, 0, 0, 0, 0, 0, 0⟩

/-- The directories the pipeline watches, each as its listing of file
names: the media root and the three output directories. -/
structure FS where
  root : List String
  outPhotos : List String
  outVideos : List String
  outFailed : List String
deriving DecidableEq, Repr

/-- The success directory of a class (`output/photos` / `output/videos`). -/
def MediaKind.outDir : MediaKind → FS → List String
  | .photo, fs => fs.outPhotos
  | .video, fs => fs.outVideos

/-- Move a file from the root into the success directory of its class
(line 235 / 318). -/
def moveToSuccess (kind : MediaKind) (fs : FS) (name : String) : FS :=
  match kind with
  | .photo =>
    { fs with
      root := fs.root.erase name,
      outPhotos := fs.outPhotos ++ [name] }
  | .video =>
    { fs with
      root := fs.root.erase name,
      outVideos := fs.outVideos ++ [name] }

/-- Success bookkeeping, lines 248-250 / 331-333. -/
def Results.addSuccess (kind : MediaKind) (res : Results) (name : String) :
    Results :=
  match kind with
  | .photo =>
    { res with
      successful := res.successful ++ [name],
      total_success := res.total_success + 1,
      processed_photos := res.processed_photos + 1 }
  | .video =>
    { res with
      successful := res.successful ++ [name],
      total_success := res.total_success + 1,
      processed_videos := res.processed_videos + 1 }

/-- Failure bookkeeping, lines 252-254 / 335-337. -/
def Results.addFailure (kind : MediaKind) (res : Results)
    (name err : String) : Results :=
  match kind with
  | .photo =>
    { res with
      failed := res.failed ++ [(name, err)],
      total_failed := res.total_failed + 1,
      failed_photos := res.failed_photos + 1 }
  | .video =>
    { res with
      failed := res.failed ++ [(name, err)],
      total_failed := res.total_failed + 1,
      failed_videos := res.failed_videos + 1 }

/-- The best-effort move of a failed file, lines 255-259 / 338-342: only if
the source file still exists, and tolerating a failing move (`mvOk`). -/
def failedMove (mvOk : String → Bool) (fs : FS) (name : String) : FS :=
  if name ∈ fs.root ∧ mvOk name then
    { fs with root := fs.root.erase name, outFailed := fs.outFailed ++ [name] }
  else fs

/-- `os.path.splitext(filename)[0]`: the prefix before the last dot, unless
every character before that dot is itself a dot. -/
def splitextStem (l : List Char) : List Char :=
  match (l.reverse.findIdx? fun c => cp c = 46) with
  | none => l
  | some j =>
    let i := l.length - 1 - j
    if (l.take i).all (fun c => cp c = 46) then l else l.take i

example : splitextStem "IMG-20230115-WA0042.jpg".data =
    "IMG-20230115-WA0042".data := by decide

example : splitextStem ".jpg".data = ".jpg".data := by decide

/-- `filename.lower().endswith(ext)` (line 186 / 272); `ext` is lower-case. -/
def endsWithLower (name ext : List Char) : Bool :=
  decide ((name.map Char.toLower).reverse.take ext.length = ext.reverse)

example : endsWithLower "photo.JPG".data ".jpg".data = true := by decide

example : endsWithLower "photo.jpeg".data ".jpg".data = false := by decide

/-- The body of the per-file loop of `process_files`
(lines 184-259 for photos, 270-342 for videos), for one file that already
passed the extension filter.  External effects are oracles: `fetch` is the
ExifTool metadata read, `setOk` whether `set_file_dates` succeeds, `mvOk`
whether the best-effort move into `output/failed` succeeds. -/
def process_file (kind : MediaKind) (fetch : String → Option MetaRecord)
    (setOk mvOk : String → Bool) (fs : FS) (res : Results) (name : String) :
    FS × Results :=
  if name ∈ kind.outDir fs ∨ name ∈ fs.outFailed then
    (fs, { res with
        skipped_already_in_output := res.skipped_already_in_output + 1 })
  else
    match resolveDateErr kind (splitextStem name.data) (fetch name) with
    | (some _, _) =>
      if setOk name then
        (moveToSuccess kind fs name,
         Results.addSuccess kind
           { res with total_processed := res.total_processed + 1 } name)
      else
        (failedMove mvOk fs name,
         Results.addFailure kind
           { res with total_processed := res.total_processed + 1 } name
           "Failed to set metadata dates (ExifTool)")
    | (none, err0) =>
      (failedMove mvOk fs name,
       Results.addFailure kind
         { res with total_processed := res.total_processed + 1 } name
         (if err0 = "Unknown error" then
            "Could not determine date from filename or metadata"
          else err0))

/-- One pass over a snapshot of the root listing (lines 184-261 / 270-344),
skipping files of the other extension. -/
def process_pass (kind : MediaKind) (fetch : String → Option MetaRecord)
    (setOk mvOk : String → Bool) : List String → FS × Results → FS × Results
  | [], st => st
  | name :: rest, st =>
    if endsWithLower name.data kind.ext.data then
      process_pass kind fetch setOk mvOk rest
        (process_file kind fetch setOk mvOk st.1 st.2 name)
    else
      process_pass kind fetch setOk mvOk rest st

/-- `process_files` (lines 155-347): photos first over a snapshot of the
root listing, then videos over a fresh snapshot. -/
def process_files (fetch : String → Option MetaRecord)
    (setOk mvOk : String → Bool) (fs : FS) : FS × Results :=
  let st1 := process_pass .photo fetch setOk mvOk fs.root (fs, initResults)
  process_pass .video fetch setOk mvOk st1.1.root st1

/-- What `main` does before any file is processed. -/
inductive EarlyExit
  | exit (code : Nat) (summary : Option String)
  | proceed
deriving DecidableEq, Repr

/-- The text written into `output/summary.txt` on lines 491-495 when no
media files were found. -/
def noFilesSummary : String :=
  "No media files (.jpg, .mp4) found in the media root directory to process."

/-- The early-exit structure of `main` (lines 443-499): missing ExifTool
components exit with status 1 and no summary; zero photos and zero videos
write the no-files summary and exit with status 0; otherwise processing
proceeds. -/
def mainEarly (depsOk : Bool) (initialPhotos initialVideos : Nat) : EarlyExit :=
  if !depsOk then .exit 1 none
  else if initialPhotos = 0 ∧ initialVideos = 0 then .exit 0 (some noFilesSummary)
  else .proceed

/-- The RunResult invariants claimed of the pipeline bookkeeping. -/
def resultsInv (res : Results) : Prop :=
  res.total_processed = res.total_success + res.total_failed ∧
  res.successful.length = res.total_success ∧
  res.failed.length = res.total_failed ∧
  res.processed_photos + res.failed_photos + res.processed_videos +
      res.failed_videos = res.total_success + res.total_failed

instance (res : Results) : Decidable (resultsInv res) := by
  unfold resultsInv; infer_instance






/-- A fully padded colon-delimited timestamp `"YYYY:MM:DD HH:MM:SS"` as a
character list, the shape ExifTool prints for its date fields. -/
def colonTimestamp (y1 y2 y3 y4 m1 m2 d1 d2 h1 h2 n1 n2 s1 s2 : Char) :
    List Char :=
  [y1, y2, y3, y4, ':', m1, m2, ':', d1, d2, ' ', h1, h2, ':',
   n1, n2, ':', s1, s2]

/-- Modelled from the words of claim C2: the stem matches the convention
`(IMG|VID|PTV)-YYYYMMDD-WA<digits>` in full, with nothing after the
digits. -/
def stemFullMatch (stem : List Char) : Bool :=
  match dropTag stem with
  | none => false
  | some r =>
    match r with
    | y1 :: y2 :: y3 :: y4 :: m1 :: m2 :: d1 :: d2 :: x1 :: x2 :: x3 :: c :: rest =>
      decide (isAsciiDigit y1 ∧ isAsciiDigit y2 ∧ isAsciiDigit y3 ∧
        isAsciiDigit y4 ∧ isAsciiDigit m1 ∧ isAsciiDigit m2 ∧
        isAsciiDigit d1 ∧ isAsciiDigit d2 ∧ cp x1 = 45 ∧ cp x2 = 87 ∧
        cp x3 = 65 ∧ isAsciiDigit c) &&
      rest.all fun ch => decide (isAsciiDigit ch)
    | _ => false

/-- Modelled from the words of the amended claim C2: a stem whose prefix
matches `(IMG|VID|PTV)-YYYYMMDD-WA<digit>` (tag, hyphen, eight digits,
`-WA`, at least one digit, arbitrary trailing characters) such that the
eight digits form a valid calendar date yields exactly that date with the
fixed time-of-day 15:00:00; every other stem yields no date. -/
def specStemDate (stem : List Char) : Option PyDateTime :=
  match dropTag stem with
  | none => none
  | some r =>
    match r with
    | y1 :: y2 :: y3 :: y4 :: m1 :: m2 :: d1 :: d2 :: x1 :: x2 :: x3 :: c :: _ =>
      if isAsciiDigit y1 ∧ isAsciiDigit y2 ∧ isAsciiDigit y3 ∧
         isAsciiDigit y4 ∧ isAsciiDigit m1 ∧ isAsciiDigit m2 ∧
         isAsciiDigit d1 ∧ isAsciiDigit d2 ∧ cp x1 = 45 ∧ cp x2 = 87 ∧
         cp x3 = 65 ∧ isAsciiDigit c then
        if 1 ≤ fourDigitVal y1 y2 y3 y4 ∧ 1 ≤ twoDigitVal m1 m2 ∧
           twoDigitVal m1 m2 ≤ 12 ∧ 1 ≤ twoDigitVal d1 d2 ∧
           twoDigitVal d1 d2 ≤
             daysInMonth (fourDigitVal y1 y2 y3 y4) (twoDigitVal m1 m2) then
          some ⟨fourDigitVal y1 y2 y3 y4, twoDigitVal m1 m2,
                twoDigitVal d1 d2, 15, 0, 0⟩
        else none
      else none
    | _ => none

/-- Digits are not whitespace. -/
lemma digit_not_space {c : Char} (h : isAsciiDigit c) : isPySpace c = false := by
  unfold isAsciiDigit cp at h
  unfold isPySpace cp
  simp only [decide_eq_false_iff_not]
  omega

/-- Digits do not match the colon or hyphen separator literal. -/
lemma expectCh_digit {n : Nat} {c : Char} {r : List Char}
    (h : isAsciiDigit c) (hn : n = 58 ∨ n = 45) :
    expectCh n (c :: r) = none := by
  unfold isAsciiDigit cp at h
  simp only [expectCh]
  rw [if_neg]
  unfold cp
  omega

/-- A matching literal is consumed. -/
lemma expectCh_pos {n : Nat} {c : Char} {r : List Char} (h : cp c = n) :
    expectCh n (c :: r) = some r := by
  simp only [expectCh]
  rw [if_pos h]

/-- `\s+` consumes a single space followed by a non-space. -/
lemma parseSpaces_pos {c : Char} {r : List Char} (h : isPySpace c = false) :
    parseSpaces (' ' :: c :: r) = some (c :: r) := by
  simp only [parseSpaces]
  rw [if_pos (by decide)]
  simp [List.dropWhile_cons, h]

lemma parseY4_pos {a b c d : Char} {r : List Char}
    (h1 : isAsciiDigit a) (h2 : isAsciiDigit b) (h3 : isAsciiDigit c)
    (h4 : isAsciiDigit d) :
    parseY4 (a :: b :: c :: d :: r) = some (fourDigitVal a b c d, r) := by
  simp only [parseY4]
  rw [if_pos ⟨h1, h2, h3, h4⟩]

/-- `%m` on two digit characters: the regex alternation matches both
characters exactly when their value is a month, falls back to a single
character when the first digit alone could be a month, and fails otherwise. -/
lemma parseMonth_eq {c1 c2 : Char} {r : List Char}
    (h1 : isAsciiDigit c1) (h2 : isAsciiDigit c2) :
    parseMonth (c1 :: c2 :: r) =
      if 1 ≤ twoDigitVal c1 c2 ∧ twoDigitVal c1 c2 ≤ 12 then
        some (twoDigitVal c1 c2, r)
      else if 1 ≤ digitVal c1 then some (digitVal c1, c2 :: r)
      else none := by
  unfold isAsciiDigit cp at h1 h2
  simp only [parseMonth, twoDigitVal, digitVal, cp]
  split_ifs <;> first
    | rfl
    | (exfalso; omega)
    | (simp only [Option.some.injEq, Prod.mk.injEq, eq_self_iff_true, and_true] <;> omega)

/-- `%d` on two digit characters. -/
lemma parseDay_eq {c1 c2 : Char} {r : List Char}
    (h1 : isAsciiDigit c1) (h2 : isAsciiDigit c2) :
    parseDay (c1 :: c2 :: r) =
      if 1 ≤ twoDigitVal c1 c2 ∧ twoDigitVal c1 c2 ≤ 31 then
        some (twoDigitVal c1 c2, r)
      else if 1 ≤ digitVal c1 then some (digitVal c1, c2 :: r)
      else none := by
  unfold isAsciiDigit cp at h1 h2
  simp only [parseDay, twoDigitVal, digitVal, cp]
  split_ifs <;> first
    | rfl
    | (exfalso; omega)
    | (simp only [Option.some.injEq, Prod.mk.injEq, eq_self_iff_true, and_true] <;> omega)

/-- `%H` on two digit characters whose value is a valid hour. -/
lemma parseHour_pos {c1 c2 : Char} {r : List Char}
    (h1 : isAsciiDigit c1) (h2 : isAsciiDigit c2)
    (hle : twoDigitVal c1 c2 ≤ 23) :
    parseHour (c1 :: c2 :: r) = some (twoDigitVal c1 c2, r) := by
  unfold isAsciiDigit cp at h1 h2
  unfold twoDigitVal digitVal at hle
  simp only [parseHour, twoDigitVal, digitVal, cp]
  split_ifs <;> first
    | (exfalso; omega)
    | (simp only [Option.some.injEq, Prod.mk.injEq, eq_self_iff_true, and_true] <;> omega)

/-- `%M` on two digit characters whose value is a valid minute. -/
lemma parseMinute_pos {c1 c2 : Char} {r : List Char}
    (h1 : isAsciiDigit c1) (h2 : isAsciiDigit c2)
    (hle : twoDigitVal c1 c2 ≤ 59) :
    parseMinute (c1 :: c2 :: r) = some (twoDigitVal c1 c2, r) := by
  unfold isAsciiDigit cp at h1 h2
  unfold twoDigitVal digitVal at hle
  simp only [parseMinute, twoDigitVal, digitVal, cp]
  split_ifs <;> first
    | (exfalso; omega)
    | (simp only [Option.some.injEq, Prod.mk.injEq, eq_self_iff_true, and_true] <;> omega)

/-- `%S` on two digit characters whose value is a valid second. -/
lemma parseSecond_pos {c1 c2 : Char} {r : List Char}
    (h1 : isAsciiDigit c1) (h2 : isAsciiDigit c2)
    (hle : twoDigitVal c1 c2 ≤ 59) :
    parseSecond (c1 :: c2 :: r) = some (twoDigitVal c1 c2, r) := by
  unfold isAsciiDigit cp at h1 h2
  unfold twoDigitVal digitVal at hle
  simp only [parseSecond, twoDigitVal, digitVal, cp]
  split_ifs <;> first
    | (exfalso; omega)
    | (simp only [Option.some.injEq, Prod.mk.injEq, eq_self_iff_true, and_true] <;> omega)

/-- Four ASCII digits have value at most 9999. -/
lemma fourDigitVal_le {a b c d : Char} (h1 : isAsciiDigit a)
    (h2 : isAsciiDigit b) (h3 : isAsciiDigit c) (h4 : isAsciiDigit d) :
    fourDigitVal a b c d ≤ 9999 := by
  unfold isAsciiDigit cp at h1 h2 h3 h4
  unfold fourDigitVal digitVal
  omega

/-- Every month length is at most 31. -/
lemma daysInMonth_le_31 (y mo : Nat) : daysInMonth y mo ≤ 31 := by
  unfold daysInMonth
  split_ifs <;> omega

/-- strptime succeeds on a fully padded `YYYY sep MM sep DD HH:MM:SS`
string whose components are in range, and returns exactly those
components. -/
lemma parseFmt_pos {sep : Nat} {sc : Char}
    {y1 y2 y3 y4 m1 m2 d1 d2 h1 h2 n1 n2 s1 s2 : Char}
    (hsc : cp sc = sep)
    (hy1 : isAsciiDigit y1) (hy2 : isAsciiDigit y2) (hy3 : isAsciiDigit y3)
    (hy4 : isAsciiDigit y4) (hm1 : isAsciiDigit m1) (hm2 : isAsciiDigit m2)
    (hd1 : isAsciiDigit d1) (hd2 : isAsciiDigit d2) (hh1 : isAsciiDigit h1)
    (hh2 : isAsciiDigit h2) (hn1 : isAsciiDigit n1) (hn2 : isAsciiDigit n2)
    (hs1 : isAsciiDigit s1) (hs2 : isAsciiDigit s2)
    (hY : 1 ≤ fourDigitVal y1 y2 y3 y4)
    (hM1 : 1 ≤ twoDigitVal m1 m2) (hM2 : twoDigitVal m1 m2 ≤ 12)
    (hD1 : 1 ≤ twoDigitVal d1 d2)
    (hD2 : twoDigitVal d1 d2 ≤
      daysInMonth (fourDigitVal y1 y2 y3 y4) (twoDigitVal m1 m2))
    (hH : twoDigitVal h1 h2 ≤ 23) (hN : twoDigitVal n1 n2 ≤ 59)
    (hS : twoDigitVal s1 s2 ≤ 59) :
    parseDateTimeFmt sep false
      [y1, y2, y3, y4, sc, m1, m2, sc, d1, d2, ' ', h1, h2, ':',
       n1, n2, ':', s1, s2] =
    some ⟨fourDigitVal y1 y2 y3 y4, twoDigitVal m1 m2, twoDigitVal d1 d2,
          twoDigitVal h1 h2, twoDigitVal n1 n2, twoDigitVal s1 s2⟩ := by
  unfold parseDateTimeFmt
  rw [parseY4_pos hy1 hy2 hy3 hy4]
  simp only [Option.some_bind]
  rw [expectCh_pos hsc]
  simp only [Option.some_bind]
  rw [parseMonth_eq hm1 hm2, if_pos ⟨hM1, hM2⟩]
  simp only [Option.some_bind]
  rw [expectCh_pos hsc]
  simp only [Option.some_bind]
  rw [parseDay_eq hd1 hd2, if_pos ⟨hD1, by
    have := daysInMonth_le_31 (fourDigitVal y1 y2 y3 y4) (twoDigitVal m1 m2)
    omega⟩]
  simp only [Option.some_bind]
  rw [parseSpaces_pos (digit_not_space hh1)]
  simp only [Option.some_bind]
  rw [parseHour_pos hh1 hh2 hH]
  simp only [Option.some_bind]
  rw [expectCh_pos (show cp ':' = 58 by decide)]
  simp only [Option.some_bind]
  rw [parseMinute_pos hn1 hn2 hN]
  simp only [Option.some_bind]
  rw [expectCh_pos (show cp ':' = 58 by decide)]
  simp only [Option.some_bind]
  rw [parseSecond_pos hs1 hs2 hS]
  simp only [Option.some_bind, Bool.false_eq_true, if_false, if_pos rfl, if_true]
  unfold mkDatetime
  apply if_pos
  exact ⟨hY, fourDigitVal_le hy1 hy2 hy3 hy4, hM1, hM2, hD1, hD2, hH, hN, hS⟩

/-- `\s+` fails on a non-space character. -/
lemma parseSpaces_neg {c : Char} {r : List Char} (h : isPySpace c = false) :
    parseSpaces (c :: r) = none := by
  simp [parseSpaces, h]

/-- strptime on the string the filename parser builds
(`"YYYY-MM-DD 15:00:00"`) fails whenever the digit groups are not a valid
calendar date. -/
lemma parseFmt_neg_hyphen {y1 y2 y3 y4 m1 m2 d1 d2 : Char}
    (hy1 : isAsciiDigit y1) (hy2 : isAsciiDigit y2) (hy3 : isAsciiDigit y3)
    (hy4 : isAsciiDigit y4) (hm1 : isAsciiDigit m1) (hm2 : isAsciiDigit m2)
    (hd1 : isAsciiDigit d1) (hd2 : isAsciiDigit d2)
    (hneg : ¬ (1 ≤ fourDigitVal y1 y2 y3 y4 ∧ 1 ≤ twoDigitVal m1 m2 ∧
      twoDigitVal m1 m2 ≤ 12 ∧ 1 ≤ twoDigitVal d1 d2 ∧
      twoDigitVal d1 d2 ≤
        daysInMonth (fourDigitVal y1 y2 y3 y4) (twoDigitVal m1 m2))) :
    parseDateTimeFmt 45 false
      [y1, y2, y3, y4, '-', m1, m2, '-', d1, d2, ' ', '1', '5', ':',
       '0', '0', ':', '0', '0'] = none := by
  unfold parseDateTimeFmt
  rw [parseY4_pos hy1 hy2 hy3 hy4]
  simp only [Option.some_bind]
  rw [expectCh_pos (show cp '-' = 45 by decide)]
  simp only [Option.some_bind]
  rw [parseMonth_eq hm1 hm2]
  by_cases hM : 1 ≤ twoDigitVal m1 m2 ∧ twoDigitVal m1 m2 ≤ 12
  · rw [if_pos hM]
    simp only [Option.some_bind]
    rw [expectCh_pos (show cp '-' = 45 by decide)]
    simp only [Option.some_bind]
    rw [parseDay_eq hd1 hd2]
    by_cases hD : 1 ≤ twoDigitVal d1 d2 ∧ twoDigitVal d1 d2 ≤ 31
    · rw [if_pos hD]
      simp only [Option.some_bind]
      rw [@parseSpaces_pos '1' _ (by decide)]
      simp only [Option.some_bind]
      rw [@parseHour_pos '1' '5' _ (by decide) (by decide) (by decide)]
      simp only [Option.some_bind]
      rw [expectCh_pos (show cp ':' = 58 by decide)]
      simp only [Option.some_bind]
      rw [@parseMinute_pos '0' '0' _ (by decide) (by decide) (by decide)]
      simp only [Option.some_bind]
      rw [expectCh_pos (show cp ':' = 58 by decide)]
      simp only [Option.some_bind]
      rw [@parseSecond_pos '0' '0' _ (by decide) (by decide) (by decide)]
      simp only [Option.some_bind, Bool.false_eq_true, if_false, if_pos rfl,
        if_true]
      unfold mkDatetime
      rw [if_neg]
      intro h
      exact hneg ⟨h.1, h.2.2.1, h.2.2.2.1, h.2.2.2.2.1, h.2.2.2.2.2.1⟩
    · rw [if_neg hD]
      by_cases hd : 1 ≤ digitVal d1
      · rw [if_pos hd]
        simp only [Option.some_bind]
        rw [parseSpaces_neg (digit_not_space hd2)]
        simp only [Option.none_bind]
      · rw [if_neg hd]
        simp only [Option.none_bind]
  · rw [if_neg hM]
    by_cases hm : 1 ≤ digitVal m1
    · rw [if_pos hm]
      simp only [Option.some_bind]
      rw [expectCh_digit hm2 (Or.inr rfl)]
      simp only [Option.none_bind]
    · rw [if_neg hm]
      simp only [Option.none_bind]

/-- The filename parser computes exactly the prefix-match-with-valid-date
specification. -/
lemma extract_eq_spec (stem : List Char) :
    extract_date_from_filename stem = specStemDate stem := by
  unfold extract_date_from_filename specStemDate
  cases hdrop : dropTag stem with
  | none => rfl
  | some r =>
    rcases r with _ | ⟨y1, _ | ⟨y2, _ | ⟨y3, _ | ⟨y4, _ | ⟨m1, _ | ⟨m2,
      _ | ⟨d1, _ | ⟨d2, _ | ⟨x1, _ | ⟨x2, _ | ⟨x3, _ | ⟨c, rest⟩⟩⟩⟩⟩⟩⟩⟩⟩⟩⟩⟩
    all_goals try rfl
    simp only []
    by_cases hg : isAsciiDigit y1 ∧ isAsciiDigit y2 ∧ isAsciiDigit y3 ∧
      isAsciiDigit y4 ∧ isAsciiDigit m1 ∧ isAsciiDigit m2 ∧
      isAsciiDigit d1 ∧ isAsciiDigit d2 ∧ cp x1 = 45 ∧ cp x2 = 87 ∧
      cp x3 = 65 ∧ isAsciiDigit c
    · rw [if_pos hg, if_pos hg]
      obtain ⟨hy1, hy2, hy3, hy4, hm1, hm2, hd1, hd2, hx1, hx2, hx3, hc⟩ := hg
      by_cases hv : 1 ≤ fourDigitVal y1 y2 y3 y4 ∧ 1 ≤ twoDigitVal m1 m2 ∧
        twoDigitVal m1 m2 ≤ 12 ∧ 1 ≤ twoDigitVal d1 d2 ∧
        twoDigitVal d1 d2 ≤
          daysInMonth (fourDigitVal y1 y2 y3 y4) (twoDigitVal m1 m2)
      · rw [if_pos hv]
        obtain ⟨hY, hM1, hM2, hD1, hD2⟩ := hv
        rw [@parseFmt_pos 45 '-' y1 y2 y3 y4 m1 m2 d1 d2 '1' '5' '0' '0' '0' '0'
          (by decide) hy1 hy2 hy3 hy4 hm1 hm2 hd1 hd2 (by decide) (by decide)
          (by decide) (by decide) (by decide) (by decide) hY hM1 hM2 hD1 hD2
          (by decide) (by decide) (by decide)]
        simp only [show twoDigitVal '1' '5' = 15 from by decide,
          show twoDigitVal '0' '0' = 0 from by decide]
      · rw [if_neg hv]
        exact parseFmt_neg_hyphen hy1 hy2 hy3 hy4 hm1 hm2 hd1 hd2 hv
    · rw [if_neg hg, if_neg hg]

/-- A character other than the split target is kept by `takeBefore`. -/
lemma takeBefore_cons_keep {n : Nat} {a : Char} {l : List Char}
    (h : cp a ≠ n) : takeBefore n (a :: l) = a :: takeBefore n l := by
  unfold takeBefore
  rw [List.takeWhile_cons, if_pos (by simpa using h)]

/-- The split target stops `takeBefore`. -/
lemma takeBefore_cons_stop {n : Nat} {a : Char} {l : List Char}
    (h : cp a = n) : takeBefore n (a :: l) = [] := by
  unfold takeBefore
  rw [List.takeWhile_cons, if_neg (by simpa using h)]

/-- `takeBefore` passes over a block free of the split target. -/
lemma takeBefore_append {n : Nat} {l r : List Char}
    (h : ∀ c ∈ l, cp c ≠ n) :
    takeBefore n (l ++ r) = l ++ takeBefore n r := by
  induction l with
  | nil => simp
  | cons a t ih =>
    rw [List.cons_append, takeBefore_cons_keep (h a (List.mem_cons_self a t)),
      ih fun c hc => h c (List.mem_cons_of_mem a hc), List.cons_append]

/-- A list free of the split target is returned whole by `takeBefore`. -/
lemma takeBefore_all {n : Nat} {l : List Char} (h : ∀ c ∈ l, cp c ≠ n) :
    takeBefore n l = l := by
  induction l with
  | nil => rfl
  | cons a t ih =>
    rw [takeBefore_cons_keep (h a (List.mem_cons_self a t)),
      ih fun c hc => h c (List.mem_cons_of_mem a hc)]

lemma dropWhile_cons_keep {p : Char → Bool} {a : Char} {l : List Char}
    (h : p a = false) : List.dropWhile p (a :: l) = a :: l := by
  simp [List.dropWhile_cons, h]

/-- `strip` leaves a string alone whose two ends are not whitespace. -/
lemma pstrip_of_ends {a b : Char} {m : List Char}
    (ha : isPySpace a = false) (hb : isPySpace b = false) :
    pstrip (a :: (m ++ [b])) = a :: (m ++ [b]) := by
  unfold pstrip
  rw [dropWhile_cons_keep ha]
  have hrev : (a :: (m ++ [b])).reverse = b :: (m.reverse ++ [a]) := by
    simp
  rw [hrev, dropWhile_cons_keep hb, ← hrev, List.reverse_reverse]

/-- The whole normalisation chain of lines 215-216 leaves a block free of
`.`, `+`, `-`, `Z` and of whitespace at its two ends alone, and removes any
suffix opened by one of those four characters. -/
lemma clean_of_stops {a b : Char} {m : List Char}
    (hmem : ∀ c ∈ a :: (m ++ [b]),
      cp c ≠ 46 ∧ cp c ≠ 43 ∧ cp c ≠ 45 ∧ cp c ≠ 90)
    (ha : isPySpace a = false) (hb : isPySpace b = false)
    (suffix : List Char)
    (hsuf : suffix = [] ∨ ∃ c r, suffix = c :: r ∧
      (cp c = 46 ∨ cp c = 43 ∨ cp c = 45 ∨ cp c = 90)) :
    cleanDateStr ((a :: (m ++ [b])) ++ suffix) = a :: (m ++ [b]) := by
  unfold cleanDateStr
  have h46 : ∀ c ∈ a :: (m ++ [b]), cp c ≠ 46 := fun c hc => (hmem c hc).1
  have h43 : ∀ c ∈ a :: (m ++ [b]), cp c ≠ 43 := fun c hc => (hmem c hc).2.1
  have h45 : ∀ c ∈ a :: (m ++ [b]), cp c ≠ 45 := fun c hc => (hmem c hc).2.2.1
  have h90 : ∀ c ∈ a :: (m ++ [b]), cp c ≠ 90 := fun c hc => (hmem c hc).2.2.2
  rcases hsuf with rfl | ⟨c, r, rfl, hc⟩
  · rw [List.append_nil, takeBefore_all h46, takeBefore_all h43,
      takeBefore_all h45, takeBefore_all h90]
    exact pstrip_of_ends ha hb
  · rw [takeBefore_append h46]
    rcases hc with hc | hc | hc | hc
    · rw [takeBefore_cons_stop hc, List.append_nil, takeBefore_all h43,
        takeBefore_all h45, takeBefore_all h90]
      exact pstrip_of_ends ha hb
    · rw [takeBefore_cons_keep (by omega), takeBefore_append h43,
        takeBefore_cons_stop hc, List.append_nil, takeBefore_all h45,
        takeBefore_all h90]
      exact pstrip_of_ends ha hb
    · rw [takeBefore_cons_keep (by omega), takeBefore_append h43,
        takeBefore_cons_keep (by omega), takeBefore_append h45,
        takeBefore_cons_stop hc, List.append_nil, takeBefore_all h90]
      exact pstrip_of_ends ha hb
    · rw [takeBefore_cons_keep (by omega), takeBefore_append h43,
        takeBefore_cons_keep (by omega), takeBefore_append h45,
        takeBefore_cons_keep (by omega), takeBefore_append h90,
        takeBefore_cons_stop hc, List.append_nil]
      exact pstrip_of_ends ha hb

/-- Characters of a padded colon timestamp never hit a split target of the
normalisation chain. -/
lemma colonTimestamp_mem {y1 y2 y3 y4 m1 m2 d1 d2 h1 h2 n1 n2 s1 s2 : Char}
    (hy1 : isAsciiDigit y1) (hy2 : isAsciiDigit y2) (hy3 : isAsciiDigit y3)
    (hy4 : isAsciiDigit y4) (hm1 : isAsciiDigit m1) (hm2 : isAsciiDigit m2)
    (hd1 : isAsciiDigit d1) (hd2 : isAsciiDigit d2) (hh1 : isAsciiDigit h1)
    (hh2 : isAsciiDigit h2) (hn1 : isAsciiDigit n1) (hn2 : isAsciiDigit n2)
    (hs1 : isAsciiDigit s1) (hs2 : isAsciiDigit s2) :
    ∀ c ∈ colonTimestamp y1 y2 y3 y4 m1 m2 d1 d2 h1 h2 n1 n2 s1 s2,
      cp c ≠ 46 ∧ cp c ≠ 43 ∧ cp c ≠ 45 ∧ cp c ≠ 90 := by
  unfold isAsciiDigit cp at hy1 hy2 hy3 hy4 hm1 hm2 hd1 hd2 hh1 hh2 hn1 hn2 hs1 hs2
  intro c hc
  unfold colonTimestamp at hc
  simp only [List.mem_cons, List.not_mem_nil, or_false] at hc
  rcases hc with rfl | rfl | rfl | rfl | rfl | rfl | rfl | rfl | rfl | rfl |
    rfl | rfl | rfl | rfl | rfl | rfl | rfl | rfl | rfl <;>
    first
      | decide
      | (unfold cp; omega)

/-- Normalisation returns a padded colon timestamp unchanged and strips a
fractional-seconds or timezone suffix from it. -/
lemma clean_colonTimestamp
    {y1 y2 y3 y4 m1 m2 d1 d2 h1 h2 n1 n2 s1 s2 : Char}
    (hy1 : isAsciiDigit y1) (hy2 : isAsciiDigit y2) (hy3 : isAsciiDigit y3)
    (hy4 : isAsciiDigit y4) (hm1 : isAsciiDigit m1) (hm2 : isAsciiDigit m2)
    (hd1 : isAsciiDigit d1) (hd2 : isAsciiDigit d2) (hh1 : isAsciiDigit h1)
    (hh2 : isAsciiDigit h2) (hn1 : isAsciiDigit n1) (hn2 : isAsciiDigit n2)
    (hs1 : isAsciiDigit s1) (hs2 : isAsciiDigit s2)
    (suffix : List Char)
    (hsuf : suffix = [] ∨ ∃ c r, suffix = c :: r ∧
      (cp c = 46 ∨ cp c = 43 ∨ cp c = 45 ∨ cp c = 90)) :
    cleanDateStr
      ((colonTimestamp y1 y2 y3 y4 m1 m2 d1 d2 h1 h2 n1 n2 s1 s2) ++ suffix) =
    colonTimestamp y1 y2 y3 y4 m1 m2 d1 d2 h1 h2 n1 n2 s1 s2 := by
  have hmem : ∀ c ∈ y1 :: ([y2, y3, y4, ':', m1, m2, ':', d1, d2, ' ', h1,
      h2, ':', n1, n2, ':', s1] ++ [s2]),
      cp c ≠ 46 ∧ cp c ≠ 43 ∧ cp c ≠ 45 ∧ cp c ≠ 90 :=
    colonTimestamp_mem hy1 hy2 hy3 hy4 hm1 hm2 hd1 hd2 hh1 hh2 hn1 hn2 hs1 hs2
  show cleanDateStr
      ((y1 :: ([y2, y3, y4, ':', m1, m2, ':', d1, d2, ' ', h1, h2, ':',
        n1, n2, ':', s1] ++ [s2])) ++ suffix) = _
  exact clean_of_stops hmem
    (digit_not_space hy1) (digit_not_space hs2) suffix hsuf

/-- Both format tuples start with the colon format without trailing `Z`. -/
lemma kind_fmts_head (kind : MediaKind) :
    ∃ tail, kind.fmts = Fmt.mk 58 false :: tail := by
  cases kind
  · exact ⟨[⟨45, false⟩], rfl⟩
  · exact ⟨[⟨45, false⟩, ⟨58, true⟩], rfl⟩

/-- A usable metadata field always carries the fixed time of day. -/
lemma usableField_fixed {fmts : List Fmt} {record : MetaRecord}
    {field : String} {d : PyDateTime}
    (h : usableField fmts record field = some d) :
    d.hour = 15 ∧ d.minute = 0 ∧ d.second = 0 := by
  unfold usableField at h
  cases hl : lookupField record field with
  | none => rw [hl] at h; exact absurd h (by simp)
  | some v =>
    rw [hl] at h
    simp only [] at h
    by_cases hv : v = ""
    · rw [if_pos hv] at h; exact absurd h (by simp)
    · rw [if_neg hv] at h
      unfold parseFieldValue at h
      rcases Option.map_eq_some'.mp h with ⟨y, _, rfl⟩
      exact ⟨rfl, rfl, rfl⟩

/-- Whatever the metadata loop returns carries the fixed time of day. -/
lemma resolveLoop_fixed {fmts : List Fmt} {record : MetaRecord}
    {fields : List String} {d : PyDateTime}
    (h : resolveLoop fmts record fields = some d) :
    d.hour = 15 ∧ d.minute = 0 ∧ d.second = 0 := by
  induction fields with
  | nil => exact absurd h (by simp [resolveLoop])
  | cons a t ih =>
    simp only [resolveLoop] at h
    cases hu : usableField fmts record a with
    | some x =>
      rw [hu] at h
      simp only [Option.some.injEq] at h
      subst h
      exact usableField_fixed hu
    | none =>
      rw [hu] at h
      exact ih h

/-- The metadata loop returns the value of the first usable field when all
fields before it are unusable. -/
lemma resolveLoop_first {fmts : List Fmt} {record : MetaRecord}
    (pre : List String) (f : String) (post : List String) (d : PyDateTime)
    (hpre : ∀ g ∈ pre, usableField fmts record g = none)
    (hf : usableField fmts record f = some d) :
    resolveLoop fmts record (pre ++ f :: post) = some d := by
  induction pre with
  | nil => simp only [List.nil_append, resolveLoop, hf]
  | cons a t ih =>
    have ha : usableField fmts record a = none :=
      hpre a (List.mem_cons_self a t)
    simp only [List.cons_append, resolveLoop, ha]
    exact ih fun g hg => hpre g (List.mem_cons_of_mem a hg)

/-- The specification-side filename date always carries the fixed time of
day. -/
lemma specStemDate_fixed {stem : List Char} {d : PyDateTime}
    (h : specStemDate stem = some d) :
    d.hour = 15 ∧ d.minute = 0 ∧ d.second = 0 := by
  unfold specStemDate at h
  split at h
  · exact absurd h (by simp)
  · split at h
    · split at h
      · split at h
        · simp only [Option.some.injEq] at h
          subst h
          exact ⟨rfl, rfl, rfl⟩
        · exact absurd h (by simp)
      · exact absurd h (by simp)
    · exact absurd h (by simp)

/-- When the filename parser yields a date, the resolution block returns it
with the error state untouched, whatever the metadata oracle holds. -/
lemma resolveDateErr_filename {kind : MediaKind} {stem : List Char}
    {mfetch : Option MetaRecord} {d : PyDateTime}
    (h : extract_date_from_filename stem = some d) :
    resolveDateErr kind stem mfetch = (some d, "Unknown error") := by
  unfold resolveDateErr
  simp only [h]

/-- A file already filed is only counted as skipped. -/
lemma process_file_skip {kind : MediaKind} {fetch : String → Option MetaRecord}
    {setOk mvOk : String → Bool} {fs : FS} {res : Results} {name : String}
    (h : name ∈ kind.outDir fs ∨ name ∈ fs.outFailed) :
    process_file kind fetch setOk mvOk fs res name =
      (fs, { res with
        skipped_already_in_output := res.skipped_already_in_output + 1 }) := by
  unfold process_file
  rw [if_pos h]

/-- Metadata read failure is recorded with its dedicated message. -/
lemma process_file_read_fail {kind : MediaKind}
    {fetch : String → Option MetaRecord} {setOk mvOk : String → Bool}
    {fs : FS} {res : Results} {name : String}
    (hns : ¬ (name ∈ kind.outDir fs ∨ name ∈ fs.outFailed))
    (hext : extract_date_from_filename (splitextStem name.data) = none)
    (hfetch : fetch name = none) :
    (process_file kind fetch setOk mvOk fs res name).2 =
      Results.addFailure kind
        { res with total_processed := res.total_processed + 1 } name
        "Failed to read metadata (ExifTool)" := by
  have hde : resolveDateErr kind (splitextStem name.data) (fetch name) =
      (none, "Failed to read metadata (ExifTool)") := by
    unfold resolveDateErr
    simp only [hext, hfetch]
  unfold process_file
  rw [if_neg hns]
  simp only [hde]
  rw [if_neg (by decide)]

/-- An unresolvable date is recorded with its dedicated message. -/
lemma process_file_no_date {kind : MediaKind}
    {fetch : String → Option MetaRecord} {setOk mvOk : String → Bool}
    {fs : FS} {res : Results} {name : String} {m : MetaRecord}
    (hns : ¬ (name ∈ kind.outDir fs ∨ name ∈ fs.outFailed))
    (hext : extract_date_from_filename (splitextStem name.data) = none)
    (hfetch : fetch name = some m) (hm : m.isEmpty = false)
    (hloop : resolveLoop kind.fmts m kind.dateFields = none) :
    (process_file kind fetch setOk mvOk fs res name).2 =
      Results.addFailure kind
        { res with total_processed := res.total_processed + 1 } name
        "Could not determine date from filename or metadata" := by
  have hde : resolveDateErr kind (splitextStem name.data) (fetch name) =
      (none, "Unknown error") := by
    unfold resolveDateErr
    simp only [hext, hfetch, hm, Bool.false_eq_true, if_false, hloop]
  unfold process_file
  rw [if_neg hns]
  simp only [hde, if_true]

/-- A metadata write failure is recorded with its dedicated message. -/
lemma process_file_set_fail {kind : MediaKind}
    {fetch : String → Option MetaRecord} {setOk mvOk : String → Bool}
    {fs : FS} {res : Results} {name : String} {d : PyDateTime} {e : String}
    (hns : ¬ (name ∈ kind.outDir fs ∨ name ∈ fs.outFailed))
    (hde : resolveDateErr kind (splitextStem name.data) (fetch name) =
      (some d, e))
    (hset : setOk name = false) :
    (process_file kind fetch setOk mvOk fs res name).2 =
      Results.addFailure kind
        { res with total_processed := res.total_processed + 1 } name
        "Failed to set metadata dates (ExifTool)" := by
  unfold process_file
  rw [if_neg hns]
  simp only [hde, hset, Bool.false_eq_true, if_false]

/-- One step of a pass: the head file is handled and the pass continues
with the rest, never aborting. -/
lemma process_pass_cons {kind : MediaKind}
    {fetch : String → Option MetaRecord} {setOk mvOk : String → Bool}
    {name : String} {rest : List String} {st : FS × Results} :
    process_pass kind fetch setOk mvOk (name :: rest) st =
      if endsWithLower name.data kind.ext.data then
        process_pass kind fetch setOk mvOk rest
          (process_file kind fetch setOk mvOk st.1 st.2 name)
      else process_pass kind fetch setOk mvOk rest st := by
  rfl

/-- The initial RunResult satisfies the bookkeeping invariants. -/
lemma resultsInv_init : resultsInv initResults := by decide

lemma resultsInv_addSuccess (kind : MediaKind) {res : Results} (name : String)
    (h : resultsInv res) :
    resultsInv (Results.addSuccess kind
      { res with total_processed := res.total_processed + 1 } name) := by
  unfold resultsInv at h
  cases kind <;>
    (unfold resultsInv Results.addSuccess
     simp
     omega)

lemma resultsInv_addFailure (kind : MediaKind) {res : Results}
    (name err : String) (h : resultsInv res) :
    resultsInv (Results.addFailure kind
      { res with total_processed := res.total_processed + 1 } name err) := by
  unfold resultsInv at h
  cases kind <;>
    (unfold resultsInv Results.addFailure
     simp
     omega)

/-- Handling one file preserves the bookkeeping invariants. -/
lemma process_file_inv {kind : MediaKind} {fetch : String → Option MetaRecord}
    {setOk mvOk : String → Bool} {fs : FS} {res : Results} {name : String}
    (h : resultsInv res) :
    resultsInv (process_file kind fetch setOk mvOk fs res name).2 := by
  unfold process_file
  by_cases hskip : name ∈ kind.outDir fs ∨ name ∈ fs.outFailed
  · rw [if_pos hskip]
    exact h
  · rw [if_neg hskip]
    rcases resolveDateErr kind (splitextStem name.data) (fetch name)
      with ⟨dd, e⟩
    cases dd with
    | some d =>
      by_cases hset : setOk name = true
      · simp only [hset, if_true]
        exact resultsInv_addSuccess kind name h
      · simp only [if_neg hset]
        exact resultsInv_addFailure kind name _ h
    | none => exact resultsInv_addFailure kind name _ h

/-- The RunResult a file handling produces does not depend on whether the
best-effort move of a failed file succeeds. -/
lemma process_file_results_mv {kind : MediaKind}
    {fetch : String → Option MetaRecord} {setOk : String → Bool}
    (mv1 mv2 : String → Bool) {fs : FS} {res : Results} {name : String} :
    (process_file kind fetch setOk mv1 fs res name).2 =
    (process_file kind fetch setOk mv2 fs res name).2 := by
  unfold process_file
  by_cases hskip : name ∈ kind.outDir fs ∨ name ∈ fs.outFailed
  · rw [if_pos hskip, if_pos hskip]
  · rw [if_neg hskip, if_neg hskip]
    rcases resolveDateErr kind (splitextStem name.data) (fetch name)
      with ⟨dd, e⟩
    cases dd with
    | some d =>
      by_cases hset : setOk name = true
      · simp only [hset, if_true]
      · simp only [if_neg hset]
    | none => rfl

/-- A whole pass preserves the bookkeeping invariants. -/
lemma process_pass_inv {kind : MediaKind} {fetch : String → Option MetaRecord}
    {setOk mvOk : String → Bool} (files : List String) (st : FS × Results)
    (h : resultsInv st.2) :
    resultsInv (process_pass kind fetch setOk mvOk files st).2 := by
  induction files generalizing st with
  | nil => exact h
  | cons name rest ih =>
    rw [process_pass_cons]
    by_cases hext : endsWithLower name.data kind.ext.data = true
    · rw [if_pos hext]
      exact ih _ (process_file_inv h)
    · rw [if_neg hext]
      exact ih _ h

/-- The full run satisfies the bookkeeping invariants. -/
lemma process_files_inv {fetch : String → Option MetaRecord}
    {setOk mvOk : String → Bool} {fs : FS} :
    resultsInv (process_files fetch setOk mvOk fs).2 := by
  unfold process_files
  exact process_pass_inv _ _ (process_pass_inv _ _ resultsInv_init)

/-- When the filename parser yields a date, resolution returns it for any
metadata oracle. -/
lemma resolveDate_filename {kind : MediaKind} {stem : List Char}
    {mfetch : Option MetaRecord} {d : PyDateTime}
    (h : extract_date_from_filename stem = some d) :
    resolveDate kind stem mfetch = some d := by
  unfold resolveDate
  rw [resolveDateErr_filename h]

/-- Every date resolution returns carries the fixed time of day. -/
lemma resolveDate_fixed {kind : MediaKind} {stem : List Char}
    {mfetch : Option MetaRecord} {d : PyDateTime}
    (h : resolveDate kind stem mfetch = some d) :
    d.hour = 15 ∧ d.minute = 0 ∧ d.second = 0 := by
  unfold resolveDate resolveDateErr at h
  cases hext : extract_date_from_filename stem with
  | some d0 =>
    rw [hext] at h
    simp only [Option.some.injEq] at h
    subst h
    rw [extract_eq_spec] at hext
    exact specStemDate_fixed hext
  | none =>
    rw [hext] at h
    cases mfetch with
    | none => exact absurd h (by simp)
    | some m =>
      simp only [] at h
      by_cases hm : m.isEmpty = true
      · rw [if_pos hm] at h
        exact absurd h (by simp)
      · rw [if_neg hm] at h
        exact resolveLoop_fixed h

/-- C1: for every filename whose stem the Filename Date Parser dates, date
resolution returns exactly that filename-derived canonical date, and the
result is identical for any two metadata fetchers — metadata is never
consulted. -/
theorem claim_C1 (kind : MediaKind) (stem : List Char)
    (f1 f2 : Option MetaRecord) (d : PyDateTime)
    (h : extract_date_from_filename stem = some d) :
    resolveDate kind stem f1 = some d ∧
    resolveDate kind stem f1 = resolveDate kind stem f2 := by
  refine ⟨resolveDate_filename h, ?_⟩
  rw [resolveDate_filename h, resolveDate_filename h]

/-- C1 witness: `IMG-20230115-WA0042` resolves to 2023-01-15T15:00:00 and
the result does not depend on the metadata fetcher. -/
theorem claim_C1_witness :
    resolveDate .photo "IMG-20230115-WA0042".data none =
      some ⟨2023, 1, 15, 15, 0, 0⟩ ∧
    resolveDate .photo "IMG-20230115-WA0042".data none =
      resolveDate .photo "IMG-20230115-WA0042".data
        (some [("DateTimeOriginal", "1999:01:01 01:01:01")]) :=
  claim_C1 .photo "IMG-20230115-WA0042".data none
    (some [("DateTimeOriginal", "1999:01:01 01:01:01")])
    ⟨2023, 1, 15, 15, 0, 0⟩ (by decide)

/-- C2 counterexample: the stem `IMG-20230115-WA0042x` does not match the
convention `(IMG|VID|PTV)-YYYYMMDD-WA<digits>` in full, yet the filename
parser returns a date instead of the claimed NoDate, because `re.match`
only anchors at the start of the stem. -/
theorem claim_C2_counterexample :
    stemFullMatch "IMG-20230115-WA0042x".data = false ∧
    extract_date_from_filename "IMG-20230115-WA0042x".data =
      some ⟨2023, 1, 15, 15, 0, 0⟩ := by
  constructor
  · decide
  · decide

/-- C2 (amended): matching is prefix matching — the parser equals the
specification "a stem whose prefix matches `(IMG|VID|PTV)-YYYYMMDD-WA`
followed by a digit, with the 8-digit token a valid calendar date, yields
that date with time 15:00:00, every other stem yields NoDate"; and a stem
the parser does not date falls through to metadata resolution. -/
theorem claim_C2_amended :
    (∀ stem : List Char,
      extract_date_from_filename stem = specStemDate stem) ∧
    ∀ (kind : MediaKind) (stem : List Char) (m : MetaRecord),
      extract_date_from_filename stem = none →
      resolveDate kind stem (some m) =
        (if m.isEmpty then none
         else resolveLoop kind.fmts m kind.dateFields) := by
  constructor
  · exact extract_eq_spec
  · intro kind stem m hext
    unfold resolveDate resolveDateErr
    rw [hext]
    simp only []
    by_cases hm : m.isEmpty = true
    · simp only [if_pos hm]
    · simp only [if_neg hm]

/-- C2 witness: a stem with no pattern prefix agrees with the
specification and falls through to the metadata record. -/
theorem claim_C2_witness :
    extract_date_from_filename "random_photo".data =
      specStemDate "random_photo".data ∧
    resolveDate .photo "random_photo".data
        (some [("DateTimeOriginal", "2022:06:01 10:23:45")]) =
      (if ([("DateTimeOriginal", "2022:06:01 10:23:45")] : MetaRecord).isEmpty
       then none
       else resolveLoop MediaKind.photo.fmts
         [("DateTimeOriginal", "2022:06:01 10:23:45")]
         MediaKind.photo.dateFields) :=
  ⟨claim_C2_amended.1 "random_photo".data,
   claim_C2_amended.2 .photo "random_photo".data
     [("DateTimeOriginal", "2022:06:01 10:23:45")] (by decide)⟩

/-- C3: when the record holds at least one usable field of the class's
priority list, the Metadata Date Resolver returns the value of the first
usable field in priority order — never a later one, however valid later
fields are. -/
theorem claim_C3 (kind : MediaKind) (record : MetaRecord)
    (pre : List String) (f : String) (post : List String) (d : PyDateTime)
    (hsplit : kind.dateFields = pre ++ f :: post)
    (hpre : ∀ g ∈ pre, usableField kind.fmts record g = none)
    (hf : usableField kind.fmts record f = some d) :
    resolveLoop kind.fmts record kind.dateFields = some d := by
  rw [hsplit]
  exact resolveLoop_first pre f post d hpre hf

/-- C3 witness: `DateTimeOriginal` is present but unparseable, `CreateDate`
parses, `ModifyDate` is also valid but later — the resolver answers from
`CreateDate`. -/
theorem claim_C3_witness :
    resolveLoop MediaKind.photo.fmts
      [("DateTimeOriginal", "garbage"),
       ("CreateDate", "2020:05:06 01:02:03"),
       ("ModifyDate", "2021:01:01 01:01:01")]
      MediaKind.photo.dateFields = some ⟨2020, 5, 6, 15, 0, 0⟩ :=
  claim_C3 .photo
    [("DateTimeOriginal", "garbage"),
     ("CreateDate", "2020:05:06 01:02:03"),
     ("ModifyDate", "2021:01:01 01:01:01")]
    ["DateTimeOriginal"] "CreateDate"
    ["SubSecDateTimeOriginal", "SubSecCreateDate", "SubSecModifyDate",
     "ModifyDate", "FileModifyDate"]
    ⟨2020, 5, 6, 15, 0, 0⟩ (by decide) (by decide) (by decide)

/-- C4 exhibits a code bug: the normalisation of lines 215-216 truncates a
hyphen-delimited value at its first hyphen (the timezone strip
`split('-')[0]`), so the hyphen format `"%Y-%m-%d %H:%M:%S"` of the format
list can never match and the claimed parse fails: `"2022-06-01 10:23:45"`
is normalised to `"2022"` and yields no date instead of the claimed
2022-06-01T15:00:00. -/
theorem claim_C4_bug :
    cleanDateStr "2022-06-01 10:23:45".data = "2022".data ∧
    parseFieldValue photoFmts "2022-06-01 10:23:45".data = none ∧
    parseFieldValue videoFmts "2022-06-01 10:23:45".data = none ∧
    resolveLoop photoFmts [("DateTimeOriginal", "2022-06-01 10:23:45")]
      MediaKind.photo.dateFields = none := by
  refine ⟨by decide, by decide, by decide, by decide⟩

/-- C5: a padded colon-delimited timestamp carrying a fractional-seconds
and/or timezone suffix (led by `.`, `+`, `-` or `Z`) is normalised back to
the bare timestamp, parses, and yields the source date with the fixed
time-of-day, for either media class. -/
theorem claim_C5 (kind : MediaKind)
    (y1 y2 y3 y4 m1 m2 d1 d2 h1 h2 n1 n2 s1 s2 : Char) (suffix : List Char)
    (hy1 : isAsciiDigit y1) (hy2 : isAsciiDigit y2) (hy3 : isAsciiDigit y3)
    (hy4 : isAsciiDigit y4) (hm1 : isAsciiDigit m1) (hm2 : isAsciiDigit m2)
    (hd1 : isAsciiDigit d1) (hd2 : isAsciiDigit d2) (hh1 : isAsciiDigit h1)
    (hh2 : isAsciiDigit h2) (hn1 : isAsciiDigit n1) (hn2 : isAsciiDigit n2)
    (hs1 : isAsciiDigit s1) (hs2 : isAsciiDigit s2)
    (hsuf : suffix = [] ∨ ∃ c r, suffix = c :: r ∧
      (cp c = 46 ∨ cp c = 43 ∨ cp c = 45 ∨ cp c = 90))
    (hY : 1 ≤ fourDigitVal y1 y2 y3 y4)
    (hM1 : 1 ≤ twoDigitVal m1 m2) (hM2 : twoDigitVal m1 m2 ≤ 12)
    (hD1 : 1 ≤ twoDigitVal d1 d2)
    (hD2 : twoDigitVal d1 d2 ≤
      daysInMonth (fourDigitVal y1 y2 y3 y4) (twoDigitVal m1 m2))
    (hH : twoDigitVal h1 h2 ≤ 23) (hN : twoDigitVal n1 n2 ≤ 59)
    (hS : twoDigitVal s1 s2 ≤ 59) :
    cleanDateStr
      ((colonTimestamp y1 y2 y3 y4 m1 m2 d1 d2 h1 h2 n1 n2 s1 s2) ++ suffix) =
      colonTimestamp y1 y2 y3 y4 m1 m2 d1 d2 h1 h2 n1 n2 s1 s2 ∧
    parseFieldValue kind.fmts
      ((colonTimestamp y1 y2 y3 y4 m1 m2 d1 d2 h1 h2 n1 n2 s1 s2) ++ suffix) =
      some ⟨fourDigitVal y1 y2 y3 y4, twoDigitVal m1 m2, twoDigitVal d1 d2,
            15, 0, 0⟩ := by
  have hclean := clean_colonTimestamp hy1 hy2 hy3 hy4 hm1 hm2 hd1 hd2 hh1
    hh2 hn1 hn2 hs1 hs2 suffix hsuf
  refine ⟨hclean, ?_⟩
  unfold parseFieldValue
  rw [hclean]
  obtain ⟨tail, hf⟩ := kind_fmts_head kind
  rw [hf]
  simp only [tryFormats]
  unfold colonTimestamp
  rw [@parseFmt_pos 58 ':' y1 y2 y3 y4 m1 m2 d1 d2 h1 h2 n1 n2 s1 s2
    (by decide) hy1 hy2 hy3 hy4 hm1 hm2 hd1 hd2 hh1 hh2 hn1 hn2 hs1 hs2
    hY hM1 hM2 hD1 hD2 hH hN hS]
  rfl

/-- C5 witness: the spec scenario `DateTimeOriginal =
"2022:06:01 10:23:45+02:00"` normalises to `2022:06:01 10:23:45` and
resolves to 2022-06-01 with time 15:00:00. -/
theorem claim_C5_witness :
    cleanDateStr "2022:06:01 10:23:45+02:00".data =
      "2022:06:01 10:23:45".data ∧
    parseFieldValue MediaKind.photo.fmts "2022:06:01 10:23:45+02:00".data =
      some ⟨2022, 6, 1, 15, 0, 0⟩ :=
  claim_C5 .photo '2' '0' '2' '2' '0' '6' '0' '1' '1' '0' '2' '3' '4' '5'
    "+02:00".data (by decide) (by decide) (by decide) (by decide) (by decide)
    (by decide) (by decide) (by decide) (by decide) (by decide) (by decide)
    (by decide) (by decide) (by decide)
    (Or.inr ⟨'+', "02:00".data, rfl, by decide⟩)
    (by decide) (by decide) (by decide) (by decide) (by decide) (by decide)
    (by decide) (by decide)

/-- C6: every date either resolution strategy produces, for either media
class, carries hour 15, minute 0, second 0. -/
theorem claim_C6 (kind : MediaKind) (stem : List Char)
    (mfetch : Option MetaRecord) (d : PyDateTime)
    (h : resolveDate kind stem mfetch = some d) :
    d.hour = 15 ∧ d.minute = 0 ∧ d.second = 0 :=
  resolveDate_fixed h

/-- C6 witness: the filename-derived date of `VID-20230115-WA0042` carries
the fixed time of day. -/
theorem claim_C6_witness :
    (⟨2023, 1, 15, 15, 0, 0⟩ : PyDateTime).hour = 15 ∧
    (⟨2023, 1, 15, 15, 0, 0⟩ : PyDateTime).minute = 0 ∧
    (⟨2023, 1, 15, 15, 0, 0⟩ : PyDateTime).second = 0 :=
  claim_C6 .video "VID-20230115-WA0042".data none ⟨2023, 1, 15, 15, 0, 0⟩
    (by decide)

/-- C7: a file whose name already exists in its class's success directory
or in the failed directory transitions directly to Skipped: only the skip
counter changes, the filesystem is untouched, and the outcome is identical
for any oracles (no metadata read or write, no move) — even when the same
name still sits unprocessed in the source directory. -/
theorem claim_C7 (kind : MediaKind)
    (fetch1 fetch2 : String → Option MetaRecord)
    (set1 set2 mv1 mv2 : String → Bool) (fs : FS) (res : Results)
    (name : String) (h : name ∈ kind.outDir fs ∨ name ∈ fs.outFailed) :
    process_file kind fetch1 set1 mv1 fs res name =
      (fs, { res with
        skipped_already_in_output := res.skipped_already_in_output + 1 }) ∧
    process_file kind fetch1 set1 mv1 fs res name =
      process_file kind fetch2 set2 mv2 fs res name := by
  refine ⟨process_file_skip h, ?_⟩
  rw [process_file_skip h, process_file_skip h]

/-- C7 witness: `b.jpg` sits in the source directory and in the failed
directory; it is skipped, nothing else changes, and the oracles are
irrelevant. -/
theorem claim_C7_witness :
    process_file .photo (fun _ => none) (fun _ => true) (fun _ => true)
        ⟨["b.jpg"], [], [], ["b.jpg"]⟩ initResults "b.jpg" =
      (⟨["b.jpg"], [], [], ["b.jpg"]⟩, ⟨[], [], 0, 0, 0, 0, 0, 0, 0, 1⟩) ∧
    process_file .photo (fun _ => none) (fun _ => true) (fun _ => true)
        ⟨["b.jpg"], [], [], ["b.jpg"]⟩ initResults "b.jpg" =
      process_file .photo
        (fun _ => some [("DateTimeOriginal", "2020:01:01 00:00:00")])
        (fun _ => false) (fun _ => false)
        ⟨["b.jpg"], [], [], ["b.jpg"]⟩ initResults "b.jpg" :=
  claim_C7 .photo (fun _ => none)
    (fun _ => some [("DateTimeOriginal", "2020:01:01 00:00:00")])
    (fun _ => true) (fun _ => false) (fun _ => true) (fun _ => false)
    ⟨["b.jpg"], [], [], ["b.jpg"]⟩ initResults "b.jpg" (by decide)

/-- C8: every per-file failure is non-fatal and distinguishable: a
metadata fetch failure records "Failed to read metadata (ExifTool)", an
unresolvable date records "Could not determine date from filename or
metadata", a metadata write failure records "Failed to set metadata dates
(ExifTool)"; and a pass always continues with the remaining files whatever
the head file produced. -/
theorem claim_C8 (kind : MediaKind) (fetch : String → Option MetaRecord)
    (setOk mvOk : String → Bool) (fs : FS) (res : Results) (name : String)
    (m : MetaRecord) (d : PyDateTime) (e : String) :
    (¬ (name ∈ kind.outDir fs ∨ name ∈ fs.outFailed) →
      extract_date_from_filename (splitextStem name.data) = none →
      fetch name = none →
      (process_file kind fetch setOk mvOk fs res name).2 =
        Results.addFailure kind
          { res with total_processed := res.total_processed + 1 } name
          "Failed to read metadata (ExifTool)") ∧
    (¬ (name ∈ kind.outDir fs ∨ name ∈ fs.outFailed) →
      extract_date_from_filename (splitextStem name.data) = none →
      fetch name = some m → m.isEmpty = false →
      resolveLoop kind.fmts m kind.dateFields = none →
      (process_file kind fetch setOk mvOk fs res name).2 =
        Results.addFailure kind
          { res with total_processed := res.total_processed + 1 } name
          "Could not determine date from filename or metadata") ∧
    (¬ (name ∈ kind.outDir fs ∨ name ∈ fs.outFailed) →
      resolveDateErr kind (splitextStem name.data) (fetch name) =
        (some d, e) →
      setOk name = false →
      (process_file kind fetch setOk mvOk fs res name).2 =
        Results.addFailure kind
          { res with total_processed := res.total_processed + 1 } name
          "Failed to set metadata dates (ExifTool)") ∧
    ∀ (first : String) (rest : List String) (st : FS × Results),
      process_pass kind fetch setOk mvOk (first :: rest) st =
        if endsWithLower first.data kind.ext.data then
          process_pass kind fetch setOk mvOk rest
            (process_file kind fetch setOk mvOk st.1 st.2 first)
        else process_pass kind fetch setOk mvOk rest st := by
  refine ⟨?_, ?_, ?_, ?_⟩
  · intro hns hext hfetch
    exact process_file_read_fail hns hext hfetch
  · intro hns hext hfetch hm hloop
    exact process_file_no_date hns hext hfetch hm hloop
  · intro hns hde hset
    exact process_file_set_fail hns hde hset
  · intro first rest st
    exact process_pass_cons

/-- C8 witness: the three failure categories at concrete inputs — a fetch
failure on `a.jpg`, a record with no usable field on `a.jpg`, and a write
failure on `IMG-20230115-WA0042.jpg`. -/
theorem claim_C8_witness :
    (process_file .photo (fun _ => none) (fun _ => true) (fun _ => true)
        ⟨["a.jpg"], [], [], []⟩ initResults "a.jpg").2 =
      Results.addFailure .photo
        { initResults with
          total_processed := initResults.total_processed + 1 } "a.jpg"
        "Failed to read metadata (ExifTool)" ∧
    (process_file .photo (fun _ => some [("Foo", "bar")]) (fun _ => true)
        (fun _ => true) ⟨["a.jpg"], [], [], []⟩ initResults "a.jpg").2 =
      Results.addFailure .photo
        { initResults with
          total_processed := initResults.total_processed + 1 } "a.jpg"
        "Could not determine date from filename or metadata" ∧
    (process_file .photo (fun _ => none) (fun _ => false) (fun _ => true)
        ⟨["IMG-20230115-WA0042.jpg"], [], [], []⟩ initResults
        "IMG-20230115-WA0042.jpg").2 =
      Results.addFailure .photo
        { initResults with
          total_processed := initResults.total_processed + 1 }
        "IMG-20230115-WA0042.jpg"
        "Failed to set metadata dates (ExifTool)" :=
  ⟨(claim_C8 .photo (fun _ => none) (fun _ => true) (fun _ => true)
      ⟨["a.jpg"], [], [], []⟩ initResults "a.jpg" [] ⟨1, 1, 1, 0, 0, 0⟩
      "").1 (by decide) (by decide) rfl,
   (claim_C8 .photo (fun _ => some [("Foo", "bar")]) (fun _ => true)
      (fun _ => true) ⟨["a.jpg"], [], [], []⟩ initResults "a.jpg"
      [("Foo", "bar")] ⟨1, 1, 1, 0, 0, 0⟩ "").2.1
      (by decide) (by decide) rfl (by decide) (by decide),
   (claim_C8 .photo (fun _ => none) (fun _ => false) (fun _ => true)
      ⟨["IMG-20230115-WA0042.jpg"], [], [], []⟩ initResults
      "IMG-20230115-WA0042.jpg" [] ⟨2023, 1, 15, 15, 0, 0⟩
      "Unknown error").2.2.1 (by decide) (by decide) rfl⟩

/-- C9 counterexample: with dependencies present and zero media files,
`main` exits with status 0, not the claimed non-zero status — it does
write the no-files summary first. -/
theorem claim_C9_counterexample :
    mainEarly true 0 0 = EarlyExit.exit 0 (some noFilesSummary) ∧
    ¬ ∃ code summary, mainEarly true 0 0 = EarlyExit.exit code summary ∧
      code ≠ 0 := by
  constructor
  · decide
  · rintro ⟨c, s, h, hne⟩
    rw [show mainEarly true 0 0 = EarlyExit.exit 0 (some noFilesSummary)
      from by decide] at h
    injection h with h1 h2
    exact hne h1.symm

/-- C9 (amended): when no media files are found (and the ExifTool
dependency check passed), the process terminates early with exit status
ZERO, after first writing a diagnostic summary stating that no media files
were found. -/
theorem claim_C9_amended (p v : Nat) (hp : p = 0) (hv : v = 0) :
    mainEarly true p v = EarlyExit.exit 0 (some noFilesSummary) := by
  subst hp
  subst hv
  decide

/-- C9 witness: the empty-source run. -/
theorem claim_C9_witness :
    mainEarly true 0 0 = EarlyExit.exit 0 (some noFilesSummary) :=
  claim_C9_amended 0 0 rfl rfl

/-- C10: the RunResult bookkeeping invariants — total_processed =
total_success + total_failed, the successful list has length
total_success, the failed list has length total_failed, and the per-class
counters sum to total_success + total_failed — hold initially, are
preserved by every file handled and by whole passes and runs, and the
recorded results do not depend on whether the physical move of a failed
file succeeds. -/
theorem claim_C10 :
    resultsInv initResults ∧
    (∀ (kind : MediaKind) (fetch : String → Option MetaRecord)
      (setOk mvOk : String → Bool) (fs : FS) (res : Results) (name : String),
      resultsInv res →
      resultsInv (process_file kind fetch setOk mvOk fs res name).2) ∧
    (∀ (kind : MediaKind) (fetch : String → Option MetaRecord)
      (setOk mv1 mv2 : String → Bool) (fs : FS) (res : Results)
      (name : String),
      (process_file kind fetch setOk mv1 fs res name).2 =
      (process_file kind fetch setOk mv2 fs res name).2) ∧
    (∀ (kind : MediaKind) (fetch : String → Option MetaRecord)
      (setOk mvOk : String → Bool) (files : List String) (st : FS × Results),
      resultsInv st.2 →
      resultsInv (process_pass kind fetch setOk mvOk files st).2) ∧
    ∀ (fetch : String → Option MetaRecord) (setOk mvOk : String → Bool)
      (fs : FS), resultsInv (process_files fetch setOk mvOk fs).2 :=
  ⟨resultsInv_init,
   fun _ _ _ _ _ _ _ h => process_file_inv h,
   fun _ _ _ mv1 mv2 _ _ _ => process_file_results_mv mv1 mv2,
   fun _ _ _ _ files st h => process_pass_inv files st h,
   fun _ _ _ _ => process_files_inv⟩

/-- C10 witness: the invariants after one concrete failed file. -/
theorem claim_C10_witness :
    resultsInv (process_file .photo (fun _ => none) (fun _ => true)
      (fun _ => true) ⟨["a.jpg"], [], [], []⟩ initResults "a.jpg").2 :=
  claim_C10.2.1 .photo (fun _ => none) (fun _ => true) (fun _ => true)
    ⟨["a.jpg"], [], [], []⟩ initResults "a.jpg" (by decide)
